import Mathlib

/-!
Verification of the Kepler orbit simulator (streamlit app).

The source computes, in exact-real terms:
  * `solve_kepler M e` : ten Newton-Raphson iterations on Kepler's equation,
    starting from `E = M` (main.py lines 15-19, part_000 lines 32-36);
  * single-orbit frame samples `t = np.linspace(0, 2*pi, 300)` and the static
    orbit outline at `np.linspace(0, 2*pi, 1000)`;
  * the period `T = np.sqrt(a**3)`;
  * two position formulas: the ellipse-parametric form of main.py and the
    true-anomaly (atan2) form of part_000;
  * the multi-body circular update of `02_solar system.py`.
Floating-point arithmetic is modelled by the real numbers; `np.arctan2 y x`
is modelled by `Complex.arg ⟨x, y⟩`, which agrees with atan2 on all inputs
(including the convention `atan2 0 0 = 0`).
-/

open Real

noncomputable section

/-- One Newton-Raphson update of Kepler's equation `E - e*sin E = M`:
the loop body `E -= (E - e*np.sin(E) - M) / (1 - e*np.cos(E))`. -/
def keplerStep (M e E : ℝ) : ℝ :=
  E - (E - e * Real.sin E - M) / (1 - e * Real.cos E)

/-- `solve_kepler(M, e)` from main.py lines 15-19 (identical in part_000):
start at `E = M`, run the loop body ten times (`for _ in range(10)`), return `E`. -/
def solve_kepler (M e : ℝ) : ℝ :=
  (List.range 10).foldl (fun E _ => E - (E - e * Real.sin E - M) / (1 - e * Real.cos E)) M

/-- The sequence of iterates of the Newton update, starting from the initial
guess `E₀ = M`. -/
def keplerIter (M e : ℝ) : ℕ → ℝ
  | 0 => M
  | n + 1 => keplerStep M e (keplerIter M e n)

/-- `np.linspace(start, stop, num)` with the default `endpoint=True`:
`num` samples `start + (stop-start)*i/(num-1)`, the last equal to `stop`. -/
def linspace (start stop : ℝ) (num : ℕ) (i : ℕ) : ℝ :=
  start + (stop - start) * i / ((num : ℝ) - 1)

/-- The per-frame mean anomaly samples: `t = np.linspace(0, 2*np.pi, 300)`,
`M = t` (main.py lines 56-57, part_000 lines 38-39). -/
def t_sample (i : ℕ) : ℝ := linspace 0 (2 * π) 300 i

/-- The static-outline parameter samples: `theta = np.linspace(0, 2*np.pi, 1000)`
(main.py line 51, part_000 line 28). -/
def theta_sample (i : ℕ) : ℝ := linspace 0 (2 * π) 1000 i

/-- The period `T = np.sqrt(a**3)` (main.py line 46, part_000 line 25). -/
def T_period (a : ℝ) : ℝ := Real.sqrt (a ^ 3)

/-- Eccentricity derived from the semi-axes: `e = np.sqrt(1 - (b**2 / a**2))`
(main.py line 44). -/
def ecc_of_axes (a b : ℝ) : ℝ := Real.sqrt (1 - b ^ 2 / a ^ 2)

/-- Static outline abscissa `x_orbit = a*np.cos(theta) - c` with `c = a*e`
(main.py lines 45, 52). -/
def x_orbit (a c : ℝ) (i : ℕ) : ℝ := a * Real.cos (theta_sample i) - c

/-- Static outline ordinate `y_orbit = b*np.sin(theta)` (main.py line 53). -/
def y_orbit (b : ℝ) (i : ℕ) : ℝ := b * Real.sin (theta_sample i)

end

namespace SolarSystem

/-- A catalog entry of `02_solar system.py`: name, semi-major axis `a` (AU) and
period `T` (years).  The display color is irrelevant to the geometry. -/
structure PlanetState where
  name : String
  a : ℝ
  T : ℝ

/-- The `planet_data` catalog of `02_solar system.py` lines 13-22, verbatim. -/
noncomputable def planet_data : List PlanetState :=
  [⟨"Mercury", 0.39, 0.24⟩, ⟨"Venus", 0.72, 0.62⟩, ⟨"Earth", 1.00, 1.00⟩,
   ⟨"Mars", 1.52, 1.88⟩, ⟨"Jupiter", 5.20, 11.86⟩, ⟨"Saturn", 9.58, 29.46⟩,
   ⟨"Uranus", 19.2, 84.01⟩, ⟨"Neptune", 30.1, 164.8⟩]

/-- `total_frames = 300` in `02_solar system.py` line 24. -/
def total_frames : ℕ := 300

/-- The body of `update(frame)` for one planet (`02_solar system.py` lines 53-59):
`angle = 2*pi*(frame/total_frames)*(1/T)`, position `(a*cos angle, a*sin angle)`. -/
noncomputable def updatePlanet (frame : ℕ) (p : PlanetState) : ℝ × ℝ :=
  let angle := 2 * Real.pi * ((frame : ℝ) / total_frames) * (1 / p.T)
  (p.a * Real.cos angle, p.a * Real.sin angle)

/-- `update(frame)` computes every catalog planet's dot position for the frame. -/
noncomputable def update (frame : ℕ) : List (ℝ × ℝ) :=
  planet_data.map (updatePlanet frame)

/-- The static circular orbit outline of `02_solar system.py` lines 41-43:
`x_orbit = a*np.cos(theta)`, `y_orbit = a*np.sin(theta)` with
`theta = np.linspace(0, 2*np.pi, 1000)`. -/
noncomputable def orbitPoint (a : ℝ) (i : ℕ) : ℝ × ℝ :=
  (a * Real.cos (linspace 0 (2 * Real.pi) 1000 i),
   a * Real.sin (linspace 0 (2 * Real.pi) 1000 i))

/-- The position formula as the spec states it for claim C4: a pure function
of the frame index, the planet's period and its semi-major axis alone. -/
noncomputable def posSpec (f : ℕ) (Tp ap : ℝ) : ℝ × ℝ :=
  (ap * Real.cos (2 * Real.pi * ((f : ℝ) / 300) * (1 / Tp)),
   ap * Real.sin (2 * Real.pi * ((f : ℝ) / 300) * (1 / Tp)))

end SolarSystem

lemma solve_kepler_eq_iter (M e : ℝ) : solve_kepler M e = keplerIter M e 10 := by
  simp [solve_kepler, keplerIter, keplerStep, List.range_succ]

/-- C1: for every eccentricity `e ∈ [0,1)` and every real mean anomaly `M`,
`solve_kepler M e` is exactly the tenth Newton-Raphson iterate of the update
`E ↦ E - (E - e*sin E - M)/(1 - e*cos E)` started at `E₀ = M`, with no
convergence check or early exit. -/
theorem solve_kepler_is_ten_newton_steps (M e : ℝ) (he0 : 0 ≤ e) (he1 : e < 1) :
    solve_kepler M e = (keplerStep M e)^[10] M := by
  have h : ∀ n, keplerIter M e n = (keplerStep M e)^[n] M := by
    intro n
    induction n with
    | zero => simp [keplerIter]
    | succ k ih => simp [keplerIter, Function.iterate_succ_apply', ih]
  rw [solve_kepler_eq_iter, h]

/-- Witness for C1 at `M = 1`, `e = 1/2`. -/
theorem solve_kepler_is_ten_newton_steps_witness :
    solve_kepler 1 (1 / 2) = (keplerStep 1 (1 / 2))^[10] 1 :=
  solve_kepler_is_ten_newton_steps 1 (1 / 2) (by norm_num) (by norm_num)

/-- C5: for `e = 0` the Newton update is the identity at `E = M`, so all ten
iterations leave `E = M` unchanged: `solve_kepler M 0 = M` exactly, with no
division by zero (the denominator is `1`). -/
theorem solve_kepler_zero_ecc (M : ℝ) : solve_kepler M 0 = M := by
  simp [solve_kepler, List.range_succ]

/-- C9: for `e ∈ [0,1)` the Newton denominator `1 - e*cos E` is bounded below
by `1 - e > 0` at every iterate, so no division by zero occurs and the solver
is total on the supported domain. -/
theorem kepler_denominator_pos (M e : ℝ) (he0 : 0 ≤ e) (he1 : e < 1) (n : ℕ) :
    1 - e ≤ 1 - e * Real.cos (keplerIter M e n) ∧
    0 < 1 - e * Real.cos (keplerIter M e n) := by
  have h : e * Real.cos (keplerIter M e n) ≤ e :=
    le_trans (mul_le_mul_of_nonneg_left (Real.cos_le_one _) he0) (by linarith)
  exact ⟨by linarith, by linarith⟩

/-- Witness for C9 at `M = 1`, `e = 1/2`, third iterate. -/
theorem kepler_denominator_pos_witness :
    1 - (1 / 2 : ℝ) ≤ 1 - (1 / 2) * Real.cos (keplerIter 1 (1 / 2) 3) ∧
    0 < 1 - (1 / 2 : ℝ) * Real.cos (keplerIter 1 (1 / 2) 3) :=
  kepler_denominator_pos 1 (1 / 2) (by norm_num) (by norm_num) 3

/-- C6: for `a > 0` the period `np.sqrt(a**3)` equals `a^(3/2)`, and its square
is `a^3` (Kepler's third law with normalized central mass). -/
theorem period_three_halves_power (a : ℝ) (ha : 0 < a) :
    T_period a = a ^ ((3 : ℝ) / 2) ∧ T_period a ^ 2 = a ^ 3 := by
  constructor
  · rw [T_period, Real.sqrt_eq_rpow, ← Real.rpow_natCast a 3, ← Real.rpow_mul ha.le]
    norm_num
  · exact Real.sq_sqrt (by positivity)

/-- Witness for C6 at `a = 4`. -/
theorem period_three_halves_power_witness :
    T_period 4 = (4 : ℝ) ^ ((3 : ℝ) / 2) ∧ T_period 4 ^ 2 = (4 : ℝ) ^ 3 :=
  period_three_halves_power 4 (by norm_num)

lemma linspace_300_eq (i : ℕ) : linspace 0 (2 * π) 300 i = 2 * π * i / 299 := by
  simp [linspace]
  ring

lemma linspace_1000_eq (i : ℕ) : linspace 0 (2 * π) 1000 i = 2 * π * i / 999 := by
  simp [linspace]
  ring

/-- C3 counterexample: the last of the 300 samples of
`np.linspace(0, 2*pi, 300)` is `2*pi` itself (the endpoint is included, the
spacing is `2*pi/299`), not `2*pi*299/300` as the claimed `M_i = 2*pi*i/300`
grid with the endpoint excluded would give. -/
theorem t_sample_endpoint_cex : t_sample 299 ≠ 2 * π * 299 / 300 := by
  have h : t_sample 299 = 2 * π := by
    rw [t_sample, linspace_300_eq]
    norm_num
  rw [h]
  intro hc
  nlinarith [Real.pi_pos]

/-- C3 amended: the 300 per-frame mean-anomaly samples of the single-orbit
mode are `M_i = 2*pi*i/299` for `i ∈ [0, 300)`: spacing `2*pi/299`, with the
endpoint `2*pi` included as the last sample. -/
theorem t_sample_amended (i : ℕ) (hi : i < 300) : t_sample i = 2 * π * i / 299 := by
  rw [t_sample, linspace_300_eq]

/-- Witness for the amended C3 at `i = 7`. -/
theorem t_sample_amended_witness : t_sample 7 = 2 * π * (7 : ℕ) / 299 :=
  t_sample_amended 7 (by norm_num)

/-- C8 counterexample: the last of the 1000 outline parameters of
`np.linspace(0, 2*pi, 1000)` is `2*pi` itself (spacing `2*pi/999`, endpoint
included), not `2*pi*999/1000` as an even spacing over `[0, 2*pi)` with 1000
points would give. -/
theorem theta_sample_endpoint_cex : theta_sample 999 ≠ 2 * π * 999 / 1000 := by
  have h : theta_sample 999 = 2 * π := by
    rw [theta_sample, linspace_1000_eq]
    norm_num
  rw [h]
  intro hc
  nlinarith [Real.pi_pos]

/-- C8 amended: the static orbit outline consists of 1000 points at parameters
`theta_i = 2*pi*i/999` for `i ∈ [0, 1000)` (evenly spaced over the closed
interval `[0, 2*pi]`, both endpoints included), and each point lies on the
full ellipse centred at `(-c, 0)` with semi-axes `a`, `b`. -/
theorem orbit_outline_amended (a b : ℝ) (ha : a ≠ 0) (hb : b ≠ 0) (i : ℕ)
    (hi : i < 1000) :
    theta_sample i = 2 * π * i / 999 ∧
    ((x_orbit a (a * ecc_of_axes a b) i + a * ecc_of_axes a b) / a) ^ 2 +
      (y_orbit b i / b) ^ 2 = 1 := by
  refine ⟨by rw [theta_sample, linspace_1000_eq], ?_⟩
  have h1 : (x_orbit a (a * ecc_of_axes a b) i + a * ecc_of_axes a b) / a =
      Real.cos (theta_sample i) := by
    rw [x_orbit]
    field_simp
  have h2 : y_orbit b i / b = Real.sin (theta_sample i) := by
    rw [y_orbit]
    field_simp
  rw [h1, h2, Real.cos_sq_add_sin_sq]

/-- Witness for the amended C8 at `a = 2`, `b = 1`, `i = 0`. -/
theorem orbit_outline_amended_witness :
    theta_sample 0 = 2 * π * (0 : ℕ) / 999 ∧
    ((x_orbit 2 (2 * ecc_of_axes 2 1) 0 + 2 * ecc_of_axes 2 1) / 2) ^ 2 +
      (y_orbit 1 0 / 1) ^ 2 = 1 :=
  orbit_outline_amended 2 1 (by norm_num) (by norm_num) 0 (by norm_num)

/-- C4: in multi-body mode with shared frame count 300, the position computed
by `update` for the `i`-th catalog planet equals
`(a_p*cos angle, a_p*sin angle)` with `angle = 2*pi*(f/300)*(1/T_p)`, a pure
function of `(f, T_p, a_p)` alone, independent of the other planets and of
prior frames. -/
theorem update_pos_pure (f i : ℕ) (hi : i < SolarSystem.planet_data.length) :
    (SolarSystem.update f).getD i (0, 0) =
      SolarSystem.posSpec f ((SolarSystem.planet_data.getD i ⟨"", 0, 0⟩).T)
        ((SolarSystem.planet_data.getD i ⟨"", 0, 0⟩).a) := by
  have h8 : i < 8 := by simpa [SolarSystem.planet_data] using hi
  interval_cases i <;>
    simp [SolarSystem.update, SolarSystem.updatePlanet, SolarSystem.posSpec,
      SolarSystem.planet_data, SolarSystem.total_frames]

/-- Witness for C4 at frame 75 and Earth (catalog index 2). -/
theorem update_pos_pure_witness :
    (SolarSystem.update 75).getD 2 (0, 0) =
      SolarSystem.posSpec 75 ((SolarSystem.planet_data.getD 2 ⟨"", 0, 0⟩).T)
        ((SolarSystem.planet_data.getD 2 ⟨"", 0, 0⟩).a) :=
  update_pos_pure 75 2 (by simp [SolarSystem.planet_data])

/-- C10: every multi-body position lies exactly on the circle of radius `a_p`,
for every frame, and the static orbit outline drawn for the planet consists of
points on the same circle. -/
theorem planet_on_circle (f : ℕ) (p : SolarSystem.PlanetState) (i : ℕ) :
    (SolarSystem.updatePlanet f p).1 ^ 2 + (SolarSystem.updatePlanet f p).2 ^ 2
      = p.a ^ 2 ∧
    (SolarSystem.orbitPoint p.a i).1 ^ 2 + (SolarSystem.orbitPoint p.a i).2 ^ 2
      = p.a ^ 2 := by
  constructor
  · have h := Real.sin_sq_add_cos_sq
      (2 * Real.pi * ((f : ℝ) / SolarSystem.total_frames) * (1 / p.T))
    simp only [SolarSystem.updatePlanet]
    linear_combination p.a ^ 2 * h
  · have h := Real.sin_sq_add_cos_sq (linspace 0 (2 * Real.pi) 1000 i)
    simp only [SolarSystem.orbitPoint]
    linear_combination p.a ^ 2 * h

/-- C7 counterexample: the parabolic input `e = 1` is not rejected: at `M = 0`
the solver silently runs its ten unguarded iterations and returns the value
`0` (in exact arithmetic the update is `0 - 0/0 = 0` at every step; the float
run produces NaN), rather than failing with an InvalidOrbitParameter error. -/
theorem no_validation_cex : solve_kepler 0 1 = 0 := by
  simp [solve_kepler, List.range_succ]

/-- C7 amended: the code performs no parameter validation at all: for every
`e` outside `[0,1)` (and every `M`) the solver still runs the same ten
unguarded Newton iterations and returns a value, instead of failing with an
InvalidOrbitParameter error before sampling. -/
theorem no_validation_amended (M e : ℝ) (he : ¬(0 ≤ e ∧ e < 1)) :
    solve_kepler M e = (keplerStep M e)^[10] M := by
  have h : ∀ n, keplerIter M e n = (keplerStep M e)^[n] M := by
    intro n
    induction n with
    | zero => simp [keplerIter]
    | succ k ih => simp [keplerIter, Function.iterate_succ_apply', ih]
  rw [solve_kepler_eq_iter, h]

/-- Witness for the amended C7 at the parabolic input `e = 1`, `M = 2`. -/
theorem no_validation_amended_witness :
    solve_kepler 2 1 = (keplerStep 2 1)^[10] 2 :=
  no_validation_amended 2 1 (by norm_num)

noncomputable section

/-- `np.arctan2 y x`, modelled as the argument of the complex number `x + i*y`
(the two agree on every input, including `arctan2 0 0 = 0`). -/
def arctan2 (y x : ℝ) : ℝ := Complex.arg ⟨x, y⟩

/-- True anomaly of part_000 lines 41-42:
`theta = 2*np.arctan2(np.sqrt(1+e)*np.sin(E/2), np.sqrt(1-e)*np.cos(E/2))`. -/
def theta_planet (e E : ℝ) : ℝ :=
  2 * arctan2 (Real.sqrt (1 + e) * Real.sin (E / 2))
    (Real.sqrt (1 - e) * Real.cos (E / 2))

/-- Radius of part_000 line 43: `r = a*(1 - e**2) / (1 + e*np.cos(theta))`. -/
def r_true (a e E : ℝ) : ℝ :=
  a * (1 - e ^ 2) / (1 + e * Real.cos (theta_planet e E))

/-- part_000 line 44: `x_planet = r*np.cos(theta)`. -/
def x_planet_true (a e E : ℝ) : ℝ := r_true a e E * Real.cos (theta_planet e E)

/-- part_000 line 45: `y_planet = r*np.sin(theta)`. -/
def y_planet_true (a e E : ℝ) : ℝ := r_true a e E * Real.sin (theta_planet e E)

/-- main.py line 59: `x_planet = a*np.cos(E) - c` with `c = a*e`. -/
def x_planet_param (a e E : ℝ) : ℝ := a * Real.cos E - a * e

/-- main.py line 60: `y_planet = b*np.sin(E)` with `b = a*np.sqrt(1 - e**2)`. -/
def y_planet_param (a e E : ℝ) : ℝ := a * Real.sqrt (1 - e ^ 2) * Real.sin E

end

/-- C2: for every `a > 0`, `e ∈ [0,1)` and every real `E`, the true-anomaly
position of part_000 (`theta = 2*atan2(sqrt(1+e)*sin(E/2), sqrt(1-e)*cos(E/2))`,
`r = a*(1-e^2)/(1+e*cos theta)`, `(r*cos theta, r*sin theta)`) equals the
ellipse-parametric position of main.py (`(a*cos E - a*e, a*sqrt(1-e^2)*sin E)`),
exactly over the reals. -/
theorem position_formulas_agree (a e E : ℝ) (ha : 0 < a) (he0 : 0 ≤ e)
    (he1 : e < 1) :
    x_planet_true a e E = x_planet_param a e E ∧
    y_planet_true a e E = y_planet_param a e E := by
  set x0 : ℝ := Real.sqrt (1 - e) * Real.cos (E / 2) with hx0
  set y0 : ℝ := Real.sqrt (1 + e) * Real.sin (E / 2) with hy0
  set z : ℂ := ⟨x0, y0⟩ with hz
  have hth : theta_planet e E = 2 * Complex.arg z := rfl
  have hpyth := Real.sin_sq_add_cos_sq (E / 2)
  have hcosE : Real.cos E = Real.cos (E / 2) ^ 2 - Real.sin (E / 2) ^ 2 := by
    have h := Real.cos_two_mul' (E / 2)
    rw [show 2 * (E / 2) = E by ring] at h
    exact h
  have hsinE : Real.sin E = 2 * Real.sin (E / 2) * Real.cos (E / 2) := by
    have h := Real.sin_two_mul (E / 2)
    rw [show 2 * (E / 2) = E by ring] at h
    exact h
  have hx0sq : x0 ^ 2 = (1 - e) * Real.cos (E / 2) ^ 2 := by
    rw [hx0, mul_pow, Real.sq_sqrt (by linarith)]
  have hy0sq : y0 ^ 2 = (1 + e) * Real.sin (E / 2) ^ 2 := by
    rw [hy0, mul_pow, Real.sq_sqrt (by linarith)]
  have hsum : x0 ^ 2 + y0 ^ 2 = 1 - e * Real.cos E := by
    rw [hx0sq, hy0sq, hcosE]
    linear_combination hpyth
  have hdiff : x0 ^ 2 - y0 ^ 2 = Real.cos E - e := by
    rw [hx0sq, hy0sq, hcosE]
    linear_combination (-e) * hpyth
  have hprod : 2 * (x0 * y0) = Real.sqrt (1 - e ^ 2) * Real.sin E := by
    have hs : Real.sqrt (1 - e) * Real.sqrt (1 + e) = Real.sqrt (1 - e ^ 2) := by
      rw [← Real.sqrt_mul (by linarith)]
      congr 1
      ring
    rw [hx0, hy0, hsinE, ← hs]
    ring
  have hD : 0 < 1 - e * Real.cos E := by
    have h := mul_le_mul_of_nonneg_left (Real.cos_le_one E) he0
    linarith
  have habs : Complex.abs z ^ 2 = x0 ^ 2 + y0 ^ 2 := by
    rw [Complex.sq_abs, hz, Complex.normSq_mk]
    ring
  have hzne : z ≠ 0 := by
    intro h0
    rw [h0] at habs
    simp at habs
    linarith [hsum, hD]
  have habspos : 0 < Complex.abs z := Complex.abs.pos hzne
  have habssq : Complex.abs z ^ 2 = 1 - e * Real.cos E := by rw [habs, hsum]
  have hre : z.re = x0 := by rw [hz]
  have him : z.im = y0 := by rw [hz]
  have hcosarg : Real.cos (Complex.arg z) = x0 / Complex.abs z := by
    rw [Complex.cos_arg hzne, hre]
  have hsinarg : Real.sin (Complex.arg z) = y0 / Complex.abs z := by
    rw [Complex.sin_arg, him]
  have hcosid : Real.cos (theta_planet e E) * (1 - e * Real.cos E)
      = Real.cos E - e := by
    rw [hth, Real.cos_two_mul, hcosarg, div_pow, habssq]
    field_simp
    linear_combination hdiff + hsum
  have hsinid : Real.sin (theta_planet e E) * (1 - e * Real.cos E)
      = Real.sqrt (1 - e ^ 2) * Real.sin E := by
    have hA : Complex.abs z ≠ 0 := ne_of_gt habspos
    rw [hth, Real.sin_two_mul, hsinarg, hcosarg]
    have key : 2 * (y0 / Complex.abs z) * (x0 / Complex.abs z)
        * (1 - e * Real.cos E)
        = 2 * (x0 * y0) * ((1 - e * Real.cos E) / Complex.abs z ^ 2) := by
      field_simp
      ring
    rw [key, habssq, div_self (ne_of_gt hD), mul_one, hprod]
  have hcosv : Real.cos (theta_planet e E)
      = (Real.cos E - e) / (1 - e * Real.cos E) := by
    rw [eq_div_iff (ne_of_gt hD)]
    exact hcosid
  have hsinv : Real.sin (theta_planet e E)
      = Real.sqrt (1 - e ^ 2) * Real.sin E / (1 - e * Real.cos E) := by
    rw [eq_div_iff (ne_of_gt hD)]
    exact hsinid
  have he2 : 0 < 1 - e ^ 2 := by nlinarith
  have honeplus : 1 + e * Real.cos (theta_planet e E)
      = (1 - e ^ 2) / (1 - e * Real.cos E) := by
    rw [hcosv]
    field_simp
    ring
  have hr : r_true a e E = a * (1 - e * Real.cos E) := by
    rw [r_true, honeplus, div_div_eq_mul_div]
    rw [mul_comm a (1 - e ^ 2), mul_assoc]
    exact mul_div_cancel_left₀ _ (ne_of_gt he2)
  constructor
  · rw [x_planet_true, hr, hcosv, x_planet_param]
    field_simp
    ring
  · rw [y_planet_true, hr, hsinv, y_planet_param]
    field_simp
    ring

/-- Witness for C2 at `a = 1`, `e = 0`, `E = 0`. -/
theorem position_formulas_agree_witness :
    x_planet_true 1 0 0 = x_planet_param 1 0 0 ∧
    y_planet_true 1 0 0 = y_planet_param 1 0 0 :=
  position_formulas_agree 1 0 0 (by norm_num) (by norm_num) (by norm_num)
